import Mathlib

/-!
A shallow embedding of `scripts/validate-projects.mjs`, a Node CLI that
validates JSON project-description files against a schema and a set of
domain rules (deprecated `imageUrl` field, image filename shape, image
existence and size, suggested-field presence), then exits 0 or 1.

Modelling decisions:
* The schema document and the ajv validator are external to the script
  (the schema is a data file, ajv a library), so the compiled validator is
  an abstract parameter `validate : Doc → Bool × List (String × String)`
  returning the validity flag and the `(instancePath, message)` error list.
* The filesystem is abstract: `fsSize : String → Option Nat` combines
  `fs.existsSync` (isSome) and `fs.statSync(..).size` (the value) for a
  path; `readDoc : String → Except String Doc` is `readJSON` on a project
  file, where `Except.error` models a thrown read/parse error, and
  `schemaLoad : Option String` models a throw while reading/compiling the
  schema (`some e` = the thrown error, printed by the top-level catch).
* Documents are modelled as JS objects whose relevant fields, when
  present, hold strings (the shape the spec's data model declares);
  JS truthiness of a string field is `isSome ∧ ≠ ""`. The three suggested
  keys only ever have their presence tested (`key in data`), so they are
  carried as Booleans.
* `console.log`/`console.error` output is a single ordered list of lines,
  ANSI escapes included; `process.exit(n)` / normal return is the Nat in
  the result. `path.join(a, b)` on a bare filename is `a ++ "/" ++ b`.
* The size label in the "image is large" message is JS
  `Math.round(size/1024/1024 * 10) / 10` rendered by template literal;
  it is modelled by exact rational arithmetic (round half up) and the
  usual JS rendering that drops a trailing `.0`.
-/

namespace ValidateProjects

/-- A parsed project document (a JS object): the fields the script reads.
`imageUrl`, `projectImage`, `studentPhoto` are string-or-absent; the three
suggested keys are tracked by presence only (`key in data`). -/
structure Doc where
  imageUrl : Option String
  projectImage : Option String
  studentPhoto : Option String
  hasProjectUrl : Bool
  hasGithubUrl : Bool
  hasTags : Bool
deriving DecidableEq, Repr

/-- The abstract environment of one run: schema loading, the compiled ajv
validator, per-file JSON reading, and the filesystem under `public/images`. -/
structure Env where
  schemaLoad : Option String
  validate : Doc → Bool × List (String × String)
  readDoc : String → Except String Doc
  fsSize : String → Option Nat

/-- `const projectsDir = path.join(root, 'src', 'data', 'projects')`
(the cwd prefix is omitted; it is constant across one run). -/
def projectsDir : String := "src/data/projects"

/-- `const publicImagesDir = path.join(root, 'public', 'images')`. -/
def publicImagesDir : String := "public/images"

/-- `findProjectFiles`: list the directory, keep `*.json`, drop the schema.
`f.endsWith(".json")` is the character-level suffix test (stated over
`String.data`, the list of characters, which the kernel can evaluate). -/
def findProjectFiles (listing : List String) : List String :=
  listing.filter (fun f => ".json".data.isSuffixOf f.data && f != "project.schema.json")

/-- `path.join(projectsDir, file)`. -/
def filePath (file : String) : String := projectsDir ++ "/" ++ file

/-- JS truthiness of a string-or-absent field: present and non-empty. -/
def truthy : Option String → Bool
  | none => false
  | some s => s != ""

/-- The `info(...)` line printed at the start of `main`. -/
def infoLine : String :=
  "\x1b[36mInfo:\x1b[0m Validating project JSON files in " ++ projectsDir

/-- `error(msg)`: the red Error line on stderr. -/
def errorLine (msg : String) : String := "\x1b[31mError:\x1b[0m " ++ msg

/-- Schema validation step: `validate(data)`; on failure print the file
header and one line per ajv error (`instancePath || '(root)'`, message).
Returns (flag contribution, printed lines). -/
def schemaCheck (env : Env) (file : String) (d : Doc) : Bool × List String :=
  let r := env.validate d
  if r.1 then (false, [])
  else
    (true,
      ("\n\x1b[33m" ++ file ++ "\x1b[0m schema errors:") ::
        r.2.map (fun e =>
          " - " ++ (if e.1 = "" then "(root)" else e.1) ++ " " ++ e.2))

/-- Deprecated-field step: `if (data.imageUrl) { ... }`. -/
def imageUrlCheck (d : Doc) : Bool × List String :=
  if truthy d.imageUrl then
    (true,
      [" - \x27imageUrl\x27 has been renamed to \x27projectImage\x27. Please update your JSON."])
  else (false, [])

/-- `const maxBytes = 10 * 1024 * 1024`. -/
def maxBytes : Nat := 10 * 1024 * 1024

/-- The megabyte label `Math.round(size/1024/1024 * 10) / 10` of the
"image is large" message, computed in exact arithmetic (round half up,
as JS Math.round) and rendered the way a JS template literal renders the
resulting number (a trailing `.0` is dropped). -/
def mbLabel (size : Nat) : String :=
  let t := (size * 10 + 524288) / 1048576
  if t % 10 == 0 then toString (t / 10)
  else toString (t / 10) ++ "." ++ toString (t % 10)

/-- The `if (data.projectImage) { ... }` block: slash check, existence
check, size check, in that order, each later check only reached when the
earlier ones pass. -/
def projectImageCheck (value : Option String) (fsSize : String → Option Nat) :
    Bool × List String :=
  match value with
  | none => (false, [])
  | some v =>
    if v == "" then (false, [])
    else if v.data.contains '/' || v.data.contains '\\' then
      (true,
        [" - projectImage should be a filename only, no path (got \x27" ++ v ++ "\x27)"])
    else
      match fsSize (publicImagesDir ++ "/" ++ v) with
      | none => (true, [" - image not found at public/images/" ++ v])
      | some size =>
        if size > maxBytes then
          (true,
            [" - image is large (" ++ mbLabel size ++ "MB). Please keep < 10MB."])
        else (false, [])

/-- The `if (data.studentPhoto) { ... }` block, transcribed from its own
lines of the source (89-106). -/
def studentPhotoCheck (value : Option String) (fsSize : String → Option Nat) :
    Bool × List String :=
  match value with
  | none => (false, [])
  | some v =>
    if v == "" then (false, [])
    else if v.data.contains '/' || v.data.contains '\\' then
      (true,
        [" - studentPhoto should be a filename only, no path (got \x27" ++ v ++ "\x27)"])
    else
      match fsSize (publicImagesDir ++ "/" ++ v) with
      | none => (true, [" - image not found at public/images/" ++ v])
      | some size =>
        if size > maxBytes then
          (true,
            [" - image is large (" ++ mbLabel size ++ "MB). Please keep < 10MB."])
        else (false, [])

/-- The generic image-field template both blocks instantiate: identical to
them except that the field name echoed in the path-shape message is a
parameter. Used to state the behavioural equivalence of the two blocks. -/
def imageFieldCheck (fieldName : String) (value : Option String)
    (fsSize : String → Option Nat) : Bool × List String :=
  match value with
  | none => (false, [])
  | some v =>
    if v == "" then (false, [])
    else if v.data.contains '/' || v.data.contains '\\' then
      (true,
        [" - " ++ fieldName ++ " should be a filename only, no path (got \x27" ++ v ++ "\x27)"])
    else
      match fsSize (publicImagesDir ++ "/" ++ v) with
      | none => (true, [" - image not found at public/images/" ++ v])
      | some size =>
        if size > maxBytes then
          (true,
            [" - image is large (" ++ mbLabel size ++ "MB). Please keep < 10MB."])
        else (false, [])

/-- Suggested-field step: `for (const key of suggested) if (!(key in data))`.
It only prints; it never touches `hasErrors`. -/
def suggestionCheck (d : Doc) : List String :=
  (if d.hasProjectUrl then [] else [" - suggestion: consider adding \"projectUrl\""]) ++
  (if d.hasGithubUrl then [] else [" - suggestion: consider adding \"githubUrl\""]) ++
  (if d.hasTags then [] else [" - suggestion: consider adding \"tags\""])

/-- One iteration of the `for (const file of files)` loop body after the
successful read: the five checks in source order; the flag contribution is
the disjunction of the four error checks, the output the concatenation of
all printed lines. -/
def perFile (env : Env) (file : String) (d : Doc) : Bool × List String :=
  let s := schemaCheck env file d
  let u := imageUrlCheck d
  let p := projectImageCheck d.projectImage env.fsSize
  let q := studentPhotoCheck d.studentPhoto env.fsSize
  (s.1 || u.1 || p.1 || q.1, s.2 ++ u.2 ++ p.2 ++ q.2 ++ suggestionCheck d)

/-- The file loop: returns (hasErrors, output, thrown). A failed
`readJSON` throws, so the loop stops there and the error propagates
(`thrown = some e`); output of files processed before the throw is kept. -/
def runFiles (env : Env) : List String → Bool × List String × Option String
  | [] => (false, [], none)
  | file :: rest =>
    match env.readDoc (filePath file) with
    | Except.error e => (false, [], some e)
    | Except.ok d =>
      let r := perFile env file d
      let rest' := runFiles env rest
      (r.1 || rest'.1, r.2 ++ rest'.2.1, rest'.2.2)

/-- `main` plus the top-level `.catch`: returns (exit code, output lines).
Order: info line, schema load (a throw aborts), file enumeration (empty is
fatal), the per-file loop (a throw aborts, keeping prior output), then the
summary line and exit code. -/
def main (env : Env) (listing : List String) : Nat × List String :=
  match env.schemaLoad with
  | some e => (1, [infoLine, e])
  | none =>
    let files := findProjectFiles listing
    if files.length == 0 then
      (1, [infoLine, errorLine "No project JSON files found. Add files to src/data/projects/."])
    else
      let r := runFiles env files
      match r.2.2 with
      | some e => (1, [infoLine] ++ r.2.1 ++ [e])
      | none =>
        if r.1 then
          (1, [infoLine] ++ r.2.1 ++
            ["\n\x1b[31mValidation failed. Please fix the issues above.\x1b[0m"])
        else
          (0, [infoLine] ++ r.2.1 ++
            ["\n\x1b[32mAll " ++ toString files.length ++ " project files are valid.\x1b[0m"])

/-- The flag contribution of an image-field block, separated from its
messages: false exactly when the field is absent, empty, or a good bare
filename. -/
def imageFlag (fsz : String → Option Nat) : Option String → Bool
  | none => false
  | some v =>
    if v == "" then false
    else if v.data.contains '/' || v.data.contains '\\' then true
    else
      match fsz (publicImagesDir ++ "/" ++ v) with
      | none => true
      | some size => size > maxBytes

/-- Whether a bare filename refers to a good image under `fsz`: no slash of
either kind, the resolved path exists, and its size is at most 10 MiB. -/
def goodImage (fsz : String → Option Nat) (v : String) : Prop :=
  v.data.contains '/' = false ∧ v.data.contains '\\' = false ∧
    ∃ size, fsz (publicImagesDir ++ "/" ++ v) = some size ∧ size ≤ maxBytes

/-- C1's run-success condition, phrased as the claim words it: at least one
eligible file, no unhandled error (schema load ok, every file parses), and
per file: schema-valid, no flagged `imageUrl`, and every PRESENT
`projectImage`/`studentPhoto` a good bare filename. -/
def fullSuccessClaimed (env : Env) (listing : List String) : Prop :=
  env.schemaLoad = none ∧ findProjectFiles listing ≠ [] ∧
    ∀ f ∈ findProjectFiles listing, ∃ d, env.readDoc (filePath f) = Except.ok d ∧
      (env.validate d).1 = true ∧ truthy d.imageUrl = false ∧
      (∀ v, d.projectImage = some v → goodImage env.fsSize v) ∧
      (∀ v, d.studentPhoto = some v → goodImage env.fsSize v)

/-- The amended success condition: as `fullSuccessClaimed`, but an image
field that is present with the EMPTY string is exempt (the script's
truthiness test skips it). -/
def fullSuccess (env : Env) (listing : List String) : Prop :=
  env.schemaLoad = none ∧ findProjectFiles listing ≠ [] ∧
    ∀ f ∈ findProjectFiles listing, ∃ d, env.readDoc (filePath f) = Except.ok d ∧
      (env.validate d).1 = true ∧ truthy d.imageUrl = false ∧
      (∀ v, d.projectImage = some v → v ≠ "" → goodImage env.fsSize v) ∧
      (∀ v, d.studentPhoto = some v → v ≠ "" → goodImage env.fsSize v)

/-- A run environment in which every project file parses to the same fixed
document, the schema loads, the validator accepts everything, and no image
file exists. -/
def constEnv (d : Doc) : Env :=
  { schemaLoad := none
    validate := fun _ => (true, [])
    readDoc := fun _ => Except.ok d
    fsSize := fun _ => none }

/-- A document with `projectImage` present but equal to the empty string. -/
def docEmptyProjectImage : Doc := ⟨none, some "", none, true, true, true⟩

/-- A document with none of the optional fields. -/
def emptyDoc : Doc := ⟨none, none, none, true, true, true⟩

/-- A document with `imageUrl` present but equal to the empty string. -/
def docEmptyImageUrl : Doc := ⟨some "", none, none, true, true, true⟩

/-- A document with a non-empty `imageUrl`. -/
def docImageUrlSet : Doc := ⟨some "old.png", none, none, true, true, true⟩

/-- Another document with a non-empty `imageUrl`. -/
def docImageUrlHttp : Doc := ⟨some "http://example.com/x.png", none, none, true, true, true⟩

/-- A document missing all three suggested keys. -/
def docNoSuggested : Doc := ⟨none, none, none, false, false, false⟩

/-- A document whose two image fields are both present but empty. -/
def docBothEmptyImages : Doc := ⟨none, some "", some "", true, true, true⟩

/-! Helper lemmas. -/

lemma schemaCheck_fst (env : Env) (file : String) (d : Doc) :
    (schemaCheck env file d).1 = !(env.validate d).1 := by
  unfold schemaCheck
  cases h : (env.validate d).1 <;> simp [h]

lemma imageUrlCheck_fst (d : Doc) :
    (imageUrlCheck d).1 = truthy d.imageUrl := by
  unfold imageUrlCheck
  cases h : truthy d.imageUrl <;> simp [h]

lemma projectImageCheck_eq_generic (v : Option String) (fsz : String → Option Nat) :
    projectImageCheck v fsz = imageFieldCheck "projectImage" v fsz := by
  unfold projectImageCheck imageFieldCheck
  cases v with
  | none => rfl
  | some s =>
    simp only
    split
    · rfl
    · split
      · have h : (" - " ++ "projectImage" ++ " should be a filename only, no path (got \x27")
            = " - projectImage should be a filename only, no path (got \x27" := rfl
        simp [← h, String.append_assoc]
      · rfl

lemma studentPhotoCheck_eq_generic (v : Option String) (fsz : String → Option Nat) :
    studentPhotoCheck v fsz = imageFieldCheck "studentPhoto" v fsz := by
  unfold studentPhotoCheck imageFieldCheck
  cases v with
  | none => rfl
  | some s =>
    simp only
    split
    · rfl
    · split
      · have h : (" - " ++ "studentPhoto" ++ " should be a filename only, no path (got \x27")
            = " - studentPhoto should be a filename only, no path (got \x27" := rfl
        simp [← h, String.append_assoc]
      · rfl

lemma imageFieldCheck_fst (name : String) (val : Option String)
    (fsz : String → Option Nat) :
    (imageFieldCheck name val fsz).1 = imageFlag fsz val := by
  unfold imageFieldCheck imageFlag
  cases val with
  | none => rfl
  | some s =>
    simp only
    split
    · rfl
    · split
      · rfl
      · cases h : fsz (publicImagesDir ++ "/" ++ s) with
        | none => rfl
        | some size => by_cases hs : size > maxBytes <;> simp [hs]

lemma imageFlag_false_iff (fsz : String → Option Nat) (val : Option String) :
    imageFlag fsz val = false ↔ ∀ v, val = some v → v ≠ "" → goodImage fsz v := by
  cases val with
  | none => simp [imageFlag]
  | some s =>
    by_cases he : s = ""
    · subst he
      simp [imageFlag]
    · have he' : (s == "") = false := by simp [he]
      by_cases hc : (s.data.contains '/' || s.data.contains '\\') = true
      · have hng : ¬ goodImage fsz s := by
          intro hg
          rcases hg with ⟨h1, h2, -⟩
          rw [h1, h2] at hc
          simp at hc
        simp only [imageFlag, he', hc]
        simp [he, hng]
      · have hc1 : s.data.contains '/' = false := by
          cases h1 : s.data.contains '/'
          · rfl
          · exact absurd (by rw [h1]; rfl) hc
        have hc2 : s.data.contains '\\' = false := by
          cases h2 : s.data.contains '\\'
          · rfl
          · exact absurd (by rw [h2]; simp) hc
        have hc' : s.data.contains '/' = false ∧ s.data.contains '\\' = false := ⟨hc1, hc2⟩
      
        cases h : fsz (publicImagesDir ++ "/" ++ s) with
        | none => simp [imageFlag, he', hc'.1, hc'.2, h, goodImage, he]
        | some size =>
          by_cases hs : size ≤ maxBytes
          · simp [imageFlag, he', hc'.1, hc'.2, h, goodImage, he, hs, Nat.not_lt.mpr hs]
          · simp [imageFlag, he', hc'.1, hc'.2, h, goodImage, he, hs, Nat.lt_of_not_le hs]

lemma perFile_fst (env : Env) (file : String) (d : Doc) :
    (perFile env file d).1 =
      (!(env.validate d).1 || truthy d.imageUrl ||
        imageFlag env.fsSize d.projectImage || imageFlag env.fsSize d.studentPhoto) := by
  unfold perFile
  simp only [schemaCheck_fst, imageUrlCheck_fst,
    projectImageCheck_eq_generic, studentPhotoCheck_eq_generic, imageFieldCheck_fst]

lemma perFile_snd (env : Env) (file : String) (d : Doc) :
    (perFile env file d).2 =
      (schemaCheck env file d).2 ++ (imageUrlCheck d).2 ++
        (projectImageCheck d.projectImage env.fsSize).2 ++
        (studentPhotoCheck d.studentPhoto env.fsSize).2 ++ suggestionCheck d := rfl

lemma perFile_fst_false_iff (env : Env) (file : String) (d : Doc) :
    (perFile env file d).1 = false ↔
      (env.validate d).1 = true ∧ truthy d.imageUrl = false ∧
        (∀ v, d.projectImage = some v → v ≠ "" → goodImage env.fsSize v) ∧
        (∀ v, d.studentPhoto = some v → v ≠ "" → goodImage env.fsSize v) := by
  rw [perFile_fst]
  simp only [Bool.or_eq_false_iff, Bool.not_eq_false', imageFlag_false_iff]
  tauto

lemma runFiles_clean_iff (env : Env) (files : List String) :
    ((runFiles env files).2.2 = none ∧ (runFiles env files).1 = false) ↔
      ∀ f ∈ files, ∃ d, env.readDoc (filePath f) = Except.ok d ∧
        (perFile env f d).1 = false := by
  induction files with
  | nil => simp [runFiles]
  | cons f rest ih =>
    cases h : env.readDoc (filePath f) with
    | error e =>
      simp only [runFiles, h]
      simp [h]
    | ok d =>
      simp only [runFiles, h]
      simp only [Bool.or_eq_false_iff]
      constructor
      · rintro ⟨ht, h1, h2⟩
        intro g hg
        rw [List.mem_cons] at hg
        rcases hg with rfl | hg
        · exact ⟨d, h, h1⟩
        · exact (ih.mp ⟨ht, h2⟩) g hg
      · intro hall
        have hf := hall f (by simp)
        rcases hf with ⟨d', hd', hflag⟩
        rw [h] at hd'
        injection hd' with hdd
        subst hdd
        have hrest := ih.mpr (fun g hg => hall g (by simp [hg]))
        exact ⟨hrest.1, hflag, hrest.2⟩

lemma runFiles_ok (env : Env) (docs : String → Doc) :
    ∀ files : List String,
      (∀ f ∈ files, env.readDoc (filePath f) = Except.ok (docs f)) →
      runFiles env files =
        (files.any fun f => (perFile env f (docs f)).1,
         (files.map fun f => (perFile env f (docs f)).2).flatten, none)
  | [], _ => by simp [runFiles]
  | f :: rest, h => by
    have hf := h f (by simp)
    have hrest := runFiles_ok env docs rest (fun g hg => h g (by simp [hg]))
    simp only [runFiles, hf, hrest]
    simp

lemma main_fst_zero_iff (env : Env) (listing : List String) :
    (main env listing).1 = 0 ↔
      env.schemaLoad = none ∧ findProjectFiles listing ≠ [] ∧
        ∀ f ∈ findProjectFiles listing, ∃ d,
          env.readDoc (filePath f) = Except.ok d ∧ (perFile env f d).1 = false := by
  unfold main
  cases hs : env.schemaLoad with
  | some e => simp
  | none =>
    dsimp only
    by_cases hf : (findProjectFiles listing).length = 0
    · have h0 : findProjectFiles listing = [] := List.length_eq_zero.mp hf
      simp [hf, h0]
    · have hne : findProjectFiles listing ≠ [] := by
        intro h0
        exact hf (by simp [h0])
      have hcond : ((findProjectFiles listing).length == 0) = false := by
        simpa using hf
      simp only [hcond, Bool.false_eq_true, if_false]
      cases hth : (runFiles env (findProjectFiles listing)).2.2 with
      | some e =>
        simp only [hth]
        constructor
        · intro h
          simp at h
        · rintro ⟨-, -, hall⟩
          have hclean := (runFiles_clean_iff env (findProjectFiles listing)).mpr hall
          rw [hth] at hclean
          exact absurd hclean.1 (by simp)
      | none =>
        simp only [hth]
        by_cases hr : (runFiles env (findProjectFiles listing)).1 = true
        · simp only [hr, if_true]
          constructor
          · intro h
            simp at h
          · rintro ⟨-, -, hall⟩
            have hclean := (runFiles_clean_iff env (findProjectFiles listing)).mpr hall
            rw [hr] at hclean
            exact absurd hclean.2 (by simp)
        · have hr' : (runFiles env (findProjectFiles listing)).1 = false := by
            simpa using hr
          have hclean := (runFiles_clean_iff env (findProjectFiles listing)).mp ⟨hth, hr'⟩
          simp only [hr', Bool.false_eq_true, if_false]
          refine ⟨fun _ => ⟨by simp, hne, hclean⟩, fun _ => by trivial⟩

lemma main_fst_zero_or_one (env : Env) (listing : List String) :
    (main env listing).1 = 0 ∨ (main env listing).1 = 1 := by
  unfold main
  split
  · right; rfl
  · dsimp only
    split
    · right; rfl
    · split
      · right; rfl
      · split
        · right; rfl
        · left; rfl

lemma fullSuccess_iff_clean (env : Env) (listing : List String) :
    fullSuccess env listing ↔
      env.schemaLoad = none ∧ findProjectFiles listing ≠ [] ∧
        ∀ f ∈ findProjectFiles listing, ∃ d,
          env.readDoc (filePath f) = Except.ok d ∧ (perFile env f d).1 = false := by
  unfold fullSuccess
  refine and_congr_right fun _ => and_congr_right fun _ => ?_
  refine forall_congr' fun f => imp_congr_right fun _ => exists_congr fun d => ?_
  refine and_congr_right fun _ => ?_
  rw [perFile_fst_false_iff]

/-! The claims. -/

/-- Claim C1, counterexample to the claim as stated: a schema-valid
document whose `projectImage` is present but is the empty string. The
claim's success condition ("every present projectImage/studentPhoto was a
bare filename referencing an existing file") is violated — the field is
present and refers to nothing — yet the run exits 0, because the script's
truthiness test skips an empty image field entirely. -/
theorem c1_claimed_counterexample :
    (main (constEnv docEmptyProjectImage) ["a.json"]).1 = 0 ∧
    ¬ fullSuccessClaimed (constEnv docEmptyProjectImage) ["a.json"] := by
  constructor
  · rfl
  · rintro ⟨-, -, hall⟩
    rcases hall "a.json" (by decide) with ⟨d, hd, -, -, hproj, -⟩
    simp only [constEnv] at hd
    injection hd with hdd
    subst hdd
    rcases hproj "" rfl with ⟨-, -, sz, hsz, -⟩
    simp [constEnv] at hsz

/-- Claim C1 (amended): the exit status is 0 iff the run fully succeeds —
at least one eligible data file enumerated, the schema loaded, every file
parsed, every file schema-valid with no flagged `imageUrl`, and every
present AND NON-EMPTY `projectImage`/`studentPhoto` a bare filename
referencing an existing file of at most 10 MiB; the exit status is 1 in
every other case (no files, any per-file check failure, or an unhandled
error). The amendment: a `projectImage`/`studentPhoto` present with the
empty string is skipped by the script and does not affect the outcome. -/
theorem c1_exit_code_iff_full_success (env : Env) (listing : List String) :
    ((main env listing).1 = 0 ↔ fullSuccess env listing) ∧
    ((main env listing).1 = 1 ↔ ¬ fullSuccess env listing) := by
  have h0 := (main_fst_zero_iff env listing).trans (fullSuccess_iff_clean env listing).symm
  refine ⟨h0, ?_⟩
  rcases main_fst_zero_or_one env listing with h | h
  · simp [h, h0.mp h]
  · rw [h]
    simp only [eq_self_iff_true, true_iff]
    intro hP
    have h2 := h0.mpr hP
    rw [h] at h2
    exact Nat.one_ne_zero h2

/-- Witness for C1: a fully successful concrete run exits 0. -/
theorem c1_exit_code_iff_full_success_witness :
    (main (constEnv emptyDoc) ["a.json"]).1 = 0 :=
  (c1_exit_code_iff_full_success (constEnv emptyDoc) ["a.json"]).1.mpr
    ⟨rfl, by decide, fun f _ =>
      ⟨emptyDoc, rfl, rfl, rfl,
        fun v hv => by simp [emptyDoc] at hv,
        fun v hv => by simp [emptyDoc] at hv⟩⟩

/-- Claim C2: when every enumerated file reads successfully, the loop
processes every file — an error found in one file never halts the others
(the run output is exactly the per-file outputs concatenated in order, and
the loop throws nothing) — and within one file the five checks are
independent: its output is the concatenation of the schema block, the
`imageUrl` block, the two image-field blocks and the suggestion block,
each computed from its own inputs alone, all emitted before the next
file's output. (A thrown read/parse error is run-aborting by design —
spec §7 — and outside this claim's scope.) -/
theorem c2_independent_processing (env : Env) (files : List String)
    (docs : String → Doc)
    (h : ∀ f ∈ files, env.readDoc (filePath f) = Except.ok (docs f)) :
    runFiles env files =
      (files.any fun f => (perFile env f (docs f)).1,
       (files.map fun f => (perFile env f (docs f)).2).flatten, none) ∧
    ∀ f ∈ files, ∀ d, perFile env f d =
      ((schemaCheck env f d).1 || (imageUrlCheck d).1 ||
        (projectImageCheck d.projectImage env.fsSize).1 ||
        (studentPhotoCheck d.studentPhoto env.fsSize).1,
       (schemaCheck env f d).2 ++ (imageUrlCheck d).2 ++
        (projectImageCheck d.projectImage env.fsSize).2 ++
        (studentPhotoCheck d.studentPhoto env.fsSize).2 ++ suggestionCheck d) :=
  ⟨runFiles_ok env docs files h, fun _ _ _ => rfl⟩

/-- Witness for C2 on a concrete two-file run. -/
theorem c2_independent_processing_witness :
    runFiles (constEnv emptyDoc) ["a.json", "b.json"] =
      ((["a.json", "b.json"]).any
        (fun f => (perFile (constEnv emptyDoc) f emptyDoc).1),
       ((["a.json", "b.json"]).map
        (fun f => (perFile (constEnv emptyDoc) f emptyDoc).2)).flatten, none) ∧
    ∀ f ∈ ["a.json", "b.json"], ∀ d, perFile (constEnv emptyDoc) f d =
      ((schemaCheck (constEnv emptyDoc) f d).1 || (imageUrlCheck d).1 ||
        (projectImageCheck d.projectImage (constEnv emptyDoc).fsSize).1 ||
        (studentPhotoCheck d.studentPhoto (constEnv emptyDoc).fsSize).1,
       (schemaCheck (constEnv emptyDoc) f d).2 ++ (imageUrlCheck d).2 ++
        (projectImageCheck d.projectImage (constEnv emptyDoc).fsSize).2 ++
        (studentPhotoCheck d.studentPhoto (constEnv emptyDoc).fsSize).2 ++
        suggestionCheck d) :=
  c2_independent_processing (constEnv emptyDoc) ["a.json", "b.json"]
    (fun _ => emptyDoc) (fun _ _ => rfl)

/-- Claim C3, counterexample to the claim as stated: `imageUrl` present
with the empty string. The claim says presence alone, regardless of value,
marks the file failed; the script tests JS truthiness, so this run exits 0
and never prints the rename instruction. -/
theorem c3_presence_counterexample :
    (main (constEnv docEmptyImageUrl) ["a.json"]).1 = 0 ∧
    " - \x27imageUrl\x27 has been renamed to \x27projectImage\x27. Please update your JSON."
      ∉ (main (constEnv docEmptyImageUrl) ["a.json"]).2 := by
  constructor
  · rfl
  · decide

/-- Claim C3 (amended): for every parsed document whose `imageUrl` is
present with a NON-EMPTY (truthy) value, the file's checks set the failure
flag and print the instruction to rename the field to `projectImage`. -/
theorem c3_truthy_imageUrl_flagged (env : Env) (file : String) (d : Doc)
    (s : String) (h1 : d.imageUrl = some s) (h2 : s ≠ "") :
    (perFile env file d).1 = true ∧
    " - \x27imageUrl\x27 has been renamed to \x27projectImage\x27. Please update your JSON."
      ∈ (perFile env file d).2 := by
  have ht : truthy d.imageUrl = true := by simp [truthy, h1, h2]
  constructor
  · rw [perFile_fst, ht]
    simp
  · rw [perFile_snd]
    have hu : imageUrlCheck d =
        (true, [" - \x27imageUrl\x27 has been renamed to \x27projectImage\x27. Please update your JSON."]) := by
      simp [imageUrlCheck, ht]
    rw [hu]
    simp

/-- Witness for C3 (amended) on a concrete document. -/
theorem c3_truthy_imageUrl_flagged_witness :
    (perFile (constEnv docImageUrlSet) "a.json" docImageUrlSet).1 = true ∧
    " - \x27imageUrl\x27 has been renamed to \x27projectImage\x27. Please update your JSON."
      ∈ (perFile (constEnv docImageUrlSet) "a.json" docImageUrlSet).2 :=
  c3_truthy_imageUrl_flagged (constEnv docImageUrlSet) "a.json" docImageUrlSet
    "old.png" rfl (by decide)

/-- Claim C4: for every document whose `imageUrl` is a non-empty string,
the deprecated-field check yields exactly (flag set, the fixed rename
instruction), and the file's checks set the failure flag and emit that
line. The statement is universally quantified over the environment — in
particular over the schema validator — so this holds independently of
whether the document passes or fails schema validation. -/
theorem c4_nonempty_imageUrl_always_flagged (env : Env) (file : String)
    (d : Doc) (s : String) (h1 : d.imageUrl = some s) (h2 : s ≠ "") :
    imageUrlCheck d =
      (true, [" - \x27imageUrl\x27 has been renamed to \x27projectImage\x27. Please update your JSON."]) ∧
    (perFile env file d).1 = true ∧
    " - \x27imageUrl\x27 has been renamed to \x27projectImage\x27. Please update your JSON."
      ∈ (perFile env file d).2 := by
  have ht : truthy d.imageUrl = true := by simp [truthy, h1, h2]
  have hu : imageUrlCheck d =
      (true, [" - \x27imageUrl\x27 has been renamed to \x27projectImage\x27. Please update your JSON."]) := by
    simp [imageUrlCheck, ht]
  refine ⟨hu, ?_, ?_⟩
  · rw [perFile_fst, ht]
    simp
  · rw [perFile_snd, hu]
    simp

/-- Witness for C4 on a concrete document with a schema-accepting
validator. -/
theorem c4_nonempty_imageUrl_always_flagged_witness :
    imageUrlCheck docImageUrlHttp =
      (true, [" - \x27imageUrl\x27 has been renamed to \x27projectImage\x27. Please update your JSON."]) ∧
    (perFile (constEnv docImageUrlHttp) "b.json" docImageUrlHttp).1 = true ∧
    " - \x27imageUrl\x27 has been renamed to \x27projectImage\x27. Please update your JSON."
      ∈ (perFile (constEnv docImageUrlHttp) "b.json" docImageUrlHttp).2 :=
  c4_nonempty_imageUrl_always_flagged (constEnv docImageUrlHttp) "b.json"
    docImageUrlHttp "http://example.com/x.png" rfl (by decide)

/-- Claim C5: for every `projectImage` (resp. `studentPhoto`) value
containing a forward or backward slash, the block yields exactly (flag
set, the "filename only, no path" diagnostic echoing the value), and its
result does not depend on the filesystem at all (no existence or size
check is performed): the result is the same under every `fsz`. -/
theorem c5_slash_flagged_no_fs_access (v : String)
    (fsz fsz' : String → Option Nat)
    (h : v.data.contains '/' = true ∨ v.data.contains '\\' = true) :
    projectImageCheck (some v) fsz =
      (true, [" - projectImage should be a filename only, no path (got \x27" ++ v ++ "\x27)"]) ∧
    studentPhotoCheck (some v) fsz =
      (true, [" - studentPhoto should be a filename only, no path (got \x27" ++ v ++ "\x27)"]) ∧
    projectImageCheck (some v) fsz' = projectImageCheck (some v) fsz ∧
    studentPhotoCheck (some v) fsz' = studentPhotoCheck (some v) fsz := by
  have hv : (v == "") = false := by
    cases hb : (v == "")
    · rfl
    · exfalso
      have hv' : v = "" := by simpa using hb
      subst hv'
      rcases h with h | h <;> exact absurd h (by decide)
  have hmem : '/' ∈ v.data ∨ '\\' ∈ v.data := by
    rcases h with h | h
    · exact Or.inl (by simpa using h)
    · exact Or.inr (by simpa using h)
  refine ⟨?_, ?_, ?_, ?_⟩ <;> simp [projectImageCheck, studentPhotoCheck, hv, hmem]

/-- Witness for C5 at a concrete slashed value. -/
theorem c5_slash_flagged_no_fs_access_witness :
    projectImageCheck (some "img/a.png") (fun _ => some 1) =
      (true, [" - projectImage should be a filename only, no path (got \x27img/a.png\x27)"]) :=
  (c5_slash_flagged_no_fs_access "img/a.png" (fun _ => some 1) (fun _ => none)
    (Or.inl (by decide))).1

/-- Claim C6: for an existing referenced image file (bare non-empty
filename, file present with some size), the block flags it as too large
exactly when the size strictly exceeds 10 × 1024 × 1024 bytes — for both
`projectImage` and `studentPhoto`. -/
theorem c6_size_threshold (v : String) (fsz : String → Option Nat)
    (size : Nat) (h1 : (v == "") = false) (h2 : v.data.contains '/' = false)
    (h3 : v.data.contains '\\' = false)
    (h4 : fsz (publicImagesDir ++ "/" ++ v) = some size) :
    ((projectImageCheck (some v) fsz).1 = true ↔ size > 10 * 1024 * 1024) ∧
    ((studentPhotoCheck (some v) fsz).1 = true ↔ size > 10 * 1024 * 1024) := by
  have hn1 : '/' ∉ v.data := by simpa using h2
  have hn2 : '\\' ∉ v.data := by simpa using h3
  constructor <;>
    (simp [projectImageCheck, studentPhotoCheck, h1, hn1, hn2, h4, maxBytes]
     split_ifs with hs <;> simp [hs])

/-- Witness for C6 at the boundary: 10 MiB + 1 byte is flagged, exactly
10 MiB is not. -/
theorem c6_size_threshold_witness :
    (projectImageCheck (some "a.png") (fun _ => some 10485761)).1 = true ∧
    (projectImageCheck (some "a.png") (fun _ => some 10485760)).1 = false := by
  constructor
  · exact (c6_size_threshold "a.png" (fun _ => some 10485761) 10485761
      rfl rfl rfl rfl).1.mpr (by decide)
  · have hiff := (c6_size_threshold "a.png" (fun _ => some 10485760) 10485760
      rfl rfl rfl rfl).1
    cases hb : (projectImageCheck (some "a.png") (fun _ => some 10485760)).1
    · rfl
    · exact absurd (hiff.mp hb) (by decide)

/-- Claim C7: when (the schema having loaded) the project-data directory
holds zero eligible files, the run exits 1 with exactly the start-up info
line and the "No project JSON files found" error — no per-file validation
or diagnostic is ever produced. -/
theorem c7_no_files_fatal (env : Env) (listing : List String)
    (h1 : env.schemaLoad = none) (h2 : findProjectFiles listing = []) :
    main env listing =
      (1, [infoLine,
        errorLine "No project JSON files found. Add files to src/data/projects/."]) := by
  unfold main
  rw [h1]
  simp [h2]

/-- Witness for C7 on an empty directory listing. -/
theorem c7_no_files_fatal_witness :
    main (constEnv emptyDoc) [] =
      (1, [infoLine,
        errorLine "No project JSON files found. Add files to src/data/projects/."]) :=
  c7_no_files_fatal (constEnv emptyDoc) [] rfl rfl

/-- Claim C8: the per-file failure flag is exactly the disjunction of the
four error checks — the suggestion step never contributes to it — and for
each of `projectUrl`, `githubUrl`, `tags` absent from the document the
corresponding suggestion line is printed. Validity and the exit code are
therefore determined without any reference to the suggestion step. -/
theorem c8_suggestions_nonfatal (env : Env) (file : String) (d : Doc) :
    (perFile env file d).1 =
      ((schemaCheck env file d).1 || (imageUrlCheck d).1 ||
        (projectImageCheck d.projectImage env.fsSize).1 ||
        (studentPhotoCheck d.studentPhoto env.fsSize).1) ∧
    (d.hasProjectUrl = false →
      " - suggestion: consider adding \"projectUrl\"" ∈ (perFile env file d).2) ∧
    (d.hasGithubUrl = false →
      " - suggestion: consider adding \"githubUrl\"" ∈ (perFile env file d).2) ∧
    (d.hasTags = false →
      " - suggestion: consider adding \"tags\"" ∈ (perFile env file d).2) := by
  refine ⟨rfl, ?_, ?_, ?_⟩ <;>
    (intro h; rw [perFile_snd]; simp [suggestionCheck, h])

/-- Witness for C8 on a document missing all three suggested keys. -/
theorem c8_suggestions_nonfatal_witness :
    " - suggestion: consider adding \"projectUrl\""
      ∈ (perFile (constEnv docNoSuggested) "a.json" docNoSuggested).2 ∧
    " - suggestion: consider adding \"githubUrl\""
      ∈ (perFile (constEnv docNoSuggested) "a.json" docNoSuggested).2 ∧
    " - suggestion: consider adding \"tags\""
      ∈ (perFile (constEnv docNoSuggested) "a.json" docNoSuggested).2 :=
  ⟨(c8_suggestions_nonfatal (constEnv docNoSuggested) "a.json" docNoSuggested).2.1 rfl,
   (c8_suggestions_nonfatal (constEnv docNoSuggested) "a.json" docNoSuggested).2.2.1 rfl,
   (c8_suggestions_nonfatal (constEnv docNoSuggested) "a.json" docNoSuggested).2.2.2 rfl⟩

/-- Claim C9: the `studentPhoto` block is behaviourally identical to the
`projectImage` block: both are the one generic image-field template
instantiated at their field name (same flag conditions, same diagnostics,
differing only in the echoed field name), and their flags agree on every
value and filesystem. -/
theorem c9_image_checks_equivalent (v : Option String)
    (fsz : String → Option Nat) :
    projectImageCheck v fsz = imageFieldCheck "projectImage" v fsz ∧
    studentPhotoCheck v fsz = imageFieldCheck "studentPhoto" v fsz ∧
    (projectImageCheck v fsz).1 = (studentPhotoCheck v fsz).1 := by
  refine ⟨projectImageCheck_eq_generic v fsz, studentPhotoCheck_eq_generic v fsz, ?_⟩
  rw [projectImageCheck_eq_generic, studentPhotoCheck_eq_generic,
    imageFieldCheck_fst, imageFieldCheck_fst]

/-- Claim C10: an image field present with a falsy value — the empty
string — undergoes none of the image checks: the block returns (no flag,
no output) identically for every filesystem (so no path-shape diagnostic,
no filesystem access, no size check), and the file's flag and output
reduce to those of the schema, `imageUrl` and suggestion steps alone. -/
theorem c10_empty_image_field_skipped (fsz : String → Option Nat)
    (env : Env) (file : String) (d : Doc)
    (h1 : d.projectImage = some "") (h2 : d.studentPhoto = some "") :
    projectImageCheck (some "") fsz = (false, []) ∧
    studentPhotoCheck (some "") fsz = (false, []) ∧
    (perFile env file d).1 = ((schemaCheck env file d).1 || (imageUrlCheck d).1) ∧
    (perFile env file d).2 =
      (schemaCheck env file d).2 ++ (imageUrlCheck d).2 ++ suggestionCheck d := by
  refine ⟨rfl, rfl, ?_, ?_⟩
  · simp only [perFile, h1, h2]
    rw [show projectImageCheck (some "") env.fsSize = (false, []) from rfl,
      show studentPhotoCheck (some "") env.fsSize = (false, []) from rfl]
    simp
  · simp only [perFile, h1, h2]
    rw [show projectImageCheck (some "") env.fsSize = (false, []) from rfl,
      show studentPhotoCheck (some "") env.fsSize = (false, []) from rfl]
    simp

/-- Witness for C10 on a concrete document with both image fields empty. -/
theorem c10_empty_image_field_skipped_witness :
    projectImageCheck (some "") (fun _ => none) = (false, []) ∧
    (perFile (constEnv docBothEmptyImages) "a.json" docBothEmptyImages).1 =
      ((schemaCheck (constEnv docBothEmptyImages) "a.json" docBothEmptyImages).1 ||
        (imageUrlCheck docBothEmptyImages).1) :=
  ⟨(c10_empty_image_field_skipped (fun _ => none) (constEnv docBothEmptyImages)
      "a.json" docBothEmptyImages rfl rfl).1,
   (c10_empty_image_field_skipped (fun _ => none) (constEnv docBothEmptyImages)
      "a.json" docBothEmptyImages rfl rfl).2.2.1⟩

end ValidateProjects
